import Mathlib

set_option autoImplicit false

/-!
Shallow embedding of the front-end event handlers of the key_sentence_extractor
repository (src/static/js/index.js, plus the legacy single-dragbar revision at
the top of that file and in src/unnamed/part_000).

The page state is modelled with exact rational percentages for the panel
extents; document-level mousemove handlers, which jQuery accumulates on every
mousedown, are modelled as a list of handler kinds dispatched in attach order.
The asynchronous upload flow is modelled as the trace of observable actions a
change event produces, parameterised by the outcome of the fetch promise.
-/

/-- Browser environment read by the drag handlers: window.innerWidth and
window.innerHeight, as exact rationals. -/
structure BrowserEnv where
  innerWidth : Rat
  innerHeight : Rat
deriving DecidableEq

/-- The two kinds of document-level mousemove handlers the code attaches:
the closure attached by the col-dragbar mousedown handler
(src/static/js/index.js lines 31-40) and the closure attached by the
row-dragbar mousedown handler (lines 49-57). -/
inductive HandlerKind where
  | colMove : HandlerKind
  | rowMove : HandlerKind
deriving DecidableEq

/-- Page state touched by the resizer code: the two drag flags
(col_dragging, row_dragging), the list of accumulated document-level
mousemove handlers in attach order, the widths (as percent values) of
container-left, container-right and pdf-container, and the heights (as
percent values) of ckp-list and embedding-plot. -/
structure PageState where
  col_dragging : Bool
  row_dragging : Bool
  moveHandlers : List HandlerKind
  containerLeft : Rat
  containerRight : Rat
  pdfContainer : Rat
  ckpList : Rat
  embeddingPlot : Rat
deriving DecidableEq

/-- One attached mousemove handler applied to the page state, translated from
src/static/js/index.js lines 31-40 (colMove) and lines 49-57 (rowMove):
each closure is gated on its own drag flag; the column closure sets
pdf-container width to 0 percent, container-left to
pageX / innerWidth * 100 and container-right to the complement; the row
closure sets ckp-list height to pageY / innerHeight * 100 and
embedding-plot to the complement. -/
def applyMoveHandler (env : BrowserEnv) (pageX pageY : Rat) :
    HandlerKind → PageState → PageState
  | HandlerKind.colMove, s =>
    if s.col_dragging then
      { s with pdfContainer := 0,
               containerLeft := pageX / env.innerWidth * 100,
               containerRight := 100 - pageX / env.innerWidth * 100 }
    else s
  | HandlerKind.rowMove, s =>
    if s.row_dragging then
      { s with ckpList := pageY / env.innerHeight * 100,
               embeddingPlot := 100 - pageY / env.innerHeight * 100 }
    else s

/-- Dispatch of a document mousemove: jQuery runs every accumulated handler
in attach order. -/
def runHandlers (env : BrowserEnv) (pageX pageY : Rat)
    (hs : List HandlerKind) (s : PageState) : PageState :=
  hs.foldl (fun st h => applyMoveHandler env pageX pageY h st) s

/-- The pointer events the resizer code listens to: mousedown on the
col-dragbar, mousedown on the row-dragbar, document mousemove (with pageX
and pageY), and document mouseup. -/
inductive MouseEv where
  | mousedownCol : MouseEv
  | mousedownRow : MouseEv
  | mousemove (pageX pageY : Rat) : MouseEv
  | mouseup : MouseEv
deriving DecidableEq

/-- One event processed against the page state, translated from
src/static/js/index.js lines 24-68: a mousedown on a bar sets its flag and
attaches one more document-level mousemove handler (never removed); a
mousemove runs all accumulated handlers; the document mouseup handler
(lines 61-68) is an else-if chain: if col_dragging it clears that flag and
restores pdf-container width to 100 percent, otherwise if row_dragging it
clears that flag, otherwise it does nothing. -/
def stepEv (env : BrowserEnv) : MouseEv → PageState → PageState
  | MouseEv.mousedownCol, s =>
    { s with col_dragging := true,
             moveHandlers := s.moveHandlers ++ [HandlerKind.colMove] }
  | MouseEv.mousedownRow, s =>
    { s with row_dragging := true,
             moveHandlers := s.moveHandlers ++ [HandlerKind.rowMove] }
  | MouseEv.mousemove x y, s => runHandlers env x y s.moveHandlers s
  | MouseEv.mouseup, s =>
    if s.col_dragging then
      { s with col_dragging := false, pdfContainer := 100 }
    else if s.row_dragging then
      { s with row_dragging := false }
    else s

/-- A whole event sequence processed in order. -/
def run (env : BrowserEnv) (evs : List MouseEv) (s : PageState) : PageState :=
  evs.foldl (fun st e => stepEv env e st) s

/-- Page state of the legacy single-dragbar revision (src/static/js/index.js
lines 1-23 and src/unnamed/part_000): one dragging flag, the pdf-container
width, the flanking container widths, and the page property of the
pdf-container element. -/
structure LegacyState where
  dragging : Bool
  containerLeft : Rat
  containerRight : Rat
  pdfContainer : Rat
  pdfPage : Nat
deriving DecidableEq

/-- The legacy document mouseup handler, translated from
src/static/js/index.js lines 19-23: unconditionally clears the dragging
flag, sets pdf-container width to 100 percent and the page property to 1
(the revision in src/unnamed/part_000 lines 20-23 is identical except that
it does not touch the page property). -/
def legacyMouseup (s : LegacyState) : LegacyState :=
  { s with dragging := false, pdfContainer := 100, pdfPage := 1 }

/-- Environment read by handleFileSelect (src/static/js/index.js
lines 92-104): window.origin, window.location.href, and the file currently
held by the file input of the upload-file form (none when the selection is
empty; the FormData built from the form carries it either way). -/
structure UploadEnv where
  origin : String
  href : String
  selection : Option String
deriving DecidableEq

/-- Outcome of the fetch promise: it resolves with an HTTP response of any
status (2xx or not), or rejects with a transport error. -/
inductive FetchOutcome where
  | resolved (status : Nat) : FetchOutcome
  | transportError : FetchOutcome
deriving DecidableEq

/-- Observable actions of the upload flow. -/
inductive UAction where
  | preventDefault : UAction
  | post (url : String) (body : Option String) : UAction
  | respObserved (o : FetchOutcome) : UAction
  | navigate (url : String) : UAction
  | consoleLog (msg : String) : UAction
deriving DecidableEq

/-- The synchronous part of handleFileSelect (src/static/js/index.js
lines 92-99): e.preventDefault(), build the FormData from the upload-file
form (whatever the selection is, with no validation), and issue the POST to
window.origin ++ "/upload_file" with that body. -/
def handleFileSelectSync (env : UploadEnv) : List UAction :=
  [UAction.preventDefault,
   UAction.post (env.origin ++ "/upload_file") env.selection]

/-- The then-continuation registered on the fetch promise
(src/static/js/index.js lines 99-101): when the promise resolves (any HTTP
status), set window.location.href to window.location.href ++
"get_key_phrases"; there is no catch handler and no console call, so a
rejected promise produces no further action. -/
def fetchThen (env : UploadEnv) : FetchOutcome → List UAction
  | FetchOutcome.resolved _ =>
    [UAction.navigate (env.href ++ "get_key_phrases")]
  | FetchOutcome.transportError => []

/-- The full trace of observable actions of one change event on the
upload-file form: the synchronous handler actions, then the observation of
the fetch outcome, then the continuation actions. -/
def changeEventTrace (env : UploadEnv) (o : FetchOutcome) : List UAction :=
  handleFileSelectSync env ++ (UAction.respObserved o :: fetchThen env o)

/-- Whether an action is a navigation. -/
def isNavigate : UAction → Bool
  | UAction.navigate _ => true
  | _ => false

/-- Whether an action is a POST request. -/
def isPost : UAction → Bool
  | UAction.post _ _ => true
  | _ => false

/-- Whether an action is a console diagnostic log entry. -/
def isConsoleLog : UAction → Bool
  | UAction.consoleLog _ => true
  | _ => false

/-- Whether an action is the observation of the fetch outcome. -/
def isRespObserved : UAction → Bool
  | UAction.respObserved _ => true
  | _ => false

/-- Number of navigations in a trace. -/
def navCount (t : List UAction) : Nat := t.countP isNavigate

/-- Number of POST requests in a trace. -/
def postCount (t : List UAction) : Nat := t.countP isPost

/-- Number of diagnostic log entries in a trace. -/
def logCount (t : List UAction) : Nat := t.countP isConsoleLog

/-- The part of a trace that happens strictly before the fetch outcome is
observed. -/
def beforeResponse (t : List UAction) : List UAction :=
  t.takeWhile (fun a => !(isRespObserved a))

/-- Validity of an event sequence for alternating presses and releases: no
second mousedown occurs before a mouseup has released the previous press.
The boolean argument records whether a press is currently open. -/
def pressOK : Bool → List MouseEv → Bool
  | _, [] => true
  | pressed, MouseEv.mousedownCol :: rest => !pressed && pressOK true rest
  | pressed, MouseEv.mousedownRow :: rest => !pressed && pressOK true rest
  | pressed, MouseEv.mousemove _ _ :: rest => pressOK pressed rest
  | _, MouseEv.mouseup :: rest => pressOK false rest

/-- A concrete browser environment for witnesses: a 1000 by 800 viewport. -/
def cBrowserEnv : BrowserEnv := { innerWidth := 1000, innerHeight := 800 }

/-- A concrete page-load state for witnesses: both flags down, no handlers
attached yet, arbitrary initial extents. -/
def cInit : PageState :=
  { col_dragging := false, row_dragging := false, moveHandlers := [],
    containerLeft := 70, containerRight := 30, pdfContainer := 100,
    ckpList := 50, embeddingPlot := 50 }

/-- A concrete reachable state in which both drag flags are set: mousedown
on the column bar followed by mousedown on the row bar, no release in
between. -/
def cBoth : PageState :=
  { col_dragging := true, row_dragging := true,
    moveHandlers := [HandlerKind.colMove, HandlerKind.rowMove],
    containerLeft := 70, containerRight := 30, pdfContainer := 100,
    ckpList := 50, embeddingPlot := 50 }

/-- A concrete state after one mousedown on the column bar: the column drag
is active and one column handler is attached. -/
def cColActive : PageState :=
  { col_dragging := true, row_dragging := false,
    moveHandlers := [HandlerKind.colMove],
    containerLeft := 70, containerRight := 30, pdfContainer := 100,
    ckpList := 50, embeddingPlot := 50 }

/-- A concrete state after one mousedown on the row bar: the row drag is
active and one row handler is attached. -/
def cRowActive : PageState :=
  { col_dragging := false, row_dragging := true,
    moveHandlers := [HandlerKind.rowMove],
    containerLeft := 70, containerRight := 30, pdfContainer := 100,
    ckpList := 50, embeddingPlot := 50 }

/-- A concrete idle state with three accumulated handlers left over from
earlier gestures. -/
def cIdleHandlers : PageState :=
  { col_dragging := false, row_dragging := false,
    moveHandlers :=
      [HandlerKind.colMove, HandlerKind.rowMove, HandlerKind.colMove],
    containerLeft := 30, containerRight := 70, pdfContainer := 100,
    ckpList := 40, embeddingPlot := 60 }

/-- A concrete legacy-revision state with no active drag, a collapsed
pdf-container and a page property other than 1. -/
def cLegacy : LegacyState :=
  { dragging := false, containerLeft := 70, containerRight := 30,
    pdfContainer := 50, pdfPage := 3 }

/-- A concrete upload environment with a selected file. -/
def cUploadEnv : UploadEnv :=
  { origin := "http://h", href := "http://h/", selection := some "f.pdf" }

/-- A concrete upload environment with an empty selection. -/
def cUploadEnvEmpty : UploadEnv :=
  { origin := "http://h", href := "http://h/", selection := none }

theorem applyMoveHandler_flags (env : BrowserEnv) (x y : Rat)
    (h : HandlerKind) (s : PageState) :
    (applyMoveHandler env x y h s).col_dragging = s.col_dragging ∧
    (applyMoveHandler env x y h s).row_dragging = s.row_dragging ∧
    (applyMoveHandler env x y h s).moveHandlers = s.moveHandlers := by
  cases h <;> simp only [applyMoveHandler] <;> split <;> simp

theorem runHandlers_nil (env : BrowserEnv) (x y : Rat) (s : PageState) :
    runHandlers env x y [] s = s := rfl

theorem runHandlers_cons (env : BrowserEnv) (x y : Rat) (h : HandlerKind)
    (hs : List HandlerKind) (s : PageState) :
    runHandlers env x y (h :: hs) s =
      runHandlers env x y hs (applyMoveHandler env x y h s) := rfl

theorem runHandlers_flags (env : BrowserEnv) (x y : Rat)
    (hs : List HandlerKind) (s : PageState) :
    (runHandlers env x y hs s).col_dragging = s.col_dragging ∧
    (runHandlers env x y hs s).row_dragging = s.row_dragging ∧
    (runHandlers env x y hs s).moveHandlers = s.moveHandlers := by
  induction hs generalizing s with
  | nil => exact ⟨rfl, rfl, rfl⟩
  | cons h hs ih =>
    rw [runHandlers_cons]
    obtain ⟨h1, h2, h3⟩ := ih (applyMoveHandler env x y h s)
    obtain ⟨g1, g2, g3⟩ := applyMoveHandler_flags env x y h s
    exact ⟨h1.trans g1, h2.trans g2, h3.trans g3⟩

theorem applyMoveHandler_heights (env : BrowserEnv) (x y : Rat)
    (h : HandlerKind) (s : PageState) (hr : s.row_dragging = false) :
    (applyMoveHandler env x y h s).ckpList = s.ckpList ∧
    (applyMoveHandler env x y h s).embeddingPlot = s.embeddingPlot := by
  cases h <;> simp only [applyMoveHandler] <;> split <;> simp_all

theorem applyMoveHandler_widths (env : BrowserEnv) (x y : Rat)
    (h : HandlerKind) (s : PageState) (hc : s.col_dragging = false) :
    (applyMoveHandler env x y h s).containerLeft = s.containerLeft ∧
    (applyMoveHandler env x y h s).containerRight = s.containerRight ∧
    (applyMoveHandler env x y h s).pdfContainer = s.pdfContainer := by
  cases h <;> simp only [applyMoveHandler] <;> split <;> simp_all

theorem runHandlers_heights (env : BrowserEnv) (x y : Rat)
    (hs : List HandlerKind) (s : PageState) (hr : s.row_dragging = false) :
    (runHandlers env x y hs s).ckpList = s.ckpList ∧
    (runHandlers env x y hs s).embeddingPlot = s.embeddingPlot := by
  induction hs generalizing s with
  | nil => exact ⟨rfl, rfl⟩
  | cons h hs ih =>
    rw [runHandlers_cons]
    have hr' : (applyMoveHandler env x y h s).row_dragging = false :=
      (applyMoveHandler_flags env x y h s).2.1.trans hr
    obtain ⟨i1, i2⟩ := ih (applyMoveHandler env x y h s) hr'
    obtain ⟨g1, g2⟩ := applyMoveHandler_heights env x y h s hr
    exact ⟨i1.trans g1, i2.trans g2⟩

theorem runHandlers_widths (env : BrowserEnv) (x y : Rat)
    (hs : List HandlerKind) (s : PageState) (hc : s.col_dragging = false) :
    (runHandlers env x y hs s).containerLeft = s.containerLeft ∧
    (runHandlers env x y hs s).containerRight = s.containerRight ∧
    (runHandlers env x y hs s).pdfContainer = s.pdfContainer := by
  induction hs generalizing s with
  | nil => exact ⟨rfl, rfl, rfl⟩
  | cons h hs ih =>
    rw [runHandlers_cons]
    have hc' : (applyMoveHandler env x y h s).col_dragging = false :=
      (applyMoveHandler_flags env x y h s).1.trans hc
    obtain ⟨i1, i2, i3⟩ := ih (applyMoveHandler env x y h s) hc'
    obtain ⟨g1, g2, g3⟩ := applyMoveHandler_widths env x y h s hc
    exact ⟨i1.trans g1, i2.trans g2, i3.trans g3⟩

theorem applyMoveHandler_inactive (env : BrowserEnv) (x y : Rat)
    (h : HandlerKind) (s : PageState)
    (hc : s.col_dragging = false) (hr : s.row_dragging = false) :
    applyMoveHandler env x y h s = s := by
  cases h <;> simp [applyMoveHandler, hc, hr]

theorem runHandlers_inactive (env : BrowserEnv) (x y : Rat)
    (hs : List HandlerKind) (s : PageState)
    (hc : s.col_dragging = false) (hr : s.row_dragging = false) :
    runHandlers env x y hs s = s := by
  induction hs with
  | nil => rfl
  | cons h hs ih =>
    rw [runHandlers_cons, applyMoveHandler_inactive env x y h s hc hr]
    exact ih

theorem applyMoveHandler_colMove_heights (env : BrowserEnv) (x y : Rat)
    (s : PageState) :
    (applyMoveHandler env x y HandlerKind.colMove s).ckpList = s.ckpList ∧
    (applyMoveHandler env x y HandlerKind.colMove s).embeddingPlot =
      s.embeddingPlot := by
  simp only [applyMoveHandler]
  split <;> simp

theorem applyMoveHandler_rowMove_widths (env : BrowserEnv) (x y : Rat)
    (s : PageState) :
    (applyMoveHandler env x y HandlerKind.rowMove s).containerLeft =
      s.containerLeft ∧
    (applyMoveHandler env x y HandlerKind.rowMove s).containerRight =
      s.containerRight ∧
    (applyMoveHandler env x y HandlerKind.rowMove s).pdfContainer =
      s.pdfContainer := by
  simp only [applyMoveHandler]
  split <;> simp

theorem runHandlers_colInvariant (env : BrowserEnv) (x y : Rat)
    (hs : List HandlerKind) (s : PageState) (hc : s.col_dragging = true)
    (hstart : (s.containerLeft = x / env.innerWidth * 100 ∧
        s.containerRight = 100 - x / env.innerWidth * 100 ∧
        s.pdfContainer = 0) ∨
      HandlerKind.colMove ∈ hs) :
    (runHandlers env x y hs s).containerLeft = x / env.innerWidth * 100 ∧
    (runHandlers env x y hs s).containerRight =
      100 - x / env.innerWidth * 100 ∧
    (runHandlers env x y hs s).pdfContainer = 0 := by
  induction hs generalizing s with
  | nil =>
    rcases hstart with h | h
    · exact h
    · cases h
  | cons h hs ih =>
    rw [runHandlers_cons]
    have hc' : (applyMoveHandler env x y h s).col_dragging = true :=
      (applyMoveHandler_flags env x y h s).1.trans hc
    cases h with
    | colMove =>
      refine ih _ hc' (Or.inl ⟨?_, ?_, ?_⟩) <;> simp [applyMoveHandler, hc]
    | rowMove =>
      refine ih _ hc' ?_
      rcases hstart with hp | hm
      · obtain ⟨g1, g2, g3⟩ := applyMoveHandler_rowMove_widths env x y s
        exact Or.inl ⟨g1.trans hp.1, g2.trans hp.2.1, g3.trans hp.2.2⟩
      · rcases List.mem_cons.mp hm with he | ht
        · exact absurd he (by simp)
        · exact Or.inr ht

theorem runHandlers_rowInvariant (env : BrowserEnv) (x y : Rat)
    (hs : List HandlerKind) (s : PageState) (hr : s.row_dragging = true)
    (hstart : (s.ckpList = y / env.innerHeight * 100 ∧
        s.embeddingPlot = 100 - y / env.innerHeight * 100) ∨
      HandlerKind.rowMove ∈ hs) :
    (runHandlers env x y hs s).ckpList = y / env.innerHeight * 100 ∧
    (runHandlers env x y hs s).embeddingPlot =
      100 - y / env.innerHeight * 100 := by
  induction hs generalizing s with
  | nil =>
    rcases hstart with h | h
    · exact h
    · cases h
  | cons h hs ih =>
    rw [runHandlers_cons]
    have hr' : (applyMoveHandler env x y h s).row_dragging = true :=
      (applyMoveHandler_flags env x y h s).2.1.trans hr
    cases h with
    | rowMove =>
      refine ih _ hr' (Or.inl ⟨?_, ?_⟩) <;> simp [applyMoveHandler, hr]
    | colMove =>
      refine ih _ hr' ?_
      rcases hstart with hp | hm
      · obtain ⟨g1, g2⟩ := applyMoveHandler_colMove_heights env x y s
        exact Or.inl ⟨g1.trans hp.1, g2.trans hp.2⟩
      · rcases List.mem_cons.mp hm with he | ht
        · exact absurd he (by simp)
        · exact Or.inr ht

theorem run_nil (env : BrowserEnv) (s : PageState) : run env [] s = s := rfl

theorem run_cons (env : BrowserEnv) (e : MouseEv) (evs : List MouseEv)
    (s : PageState) :
    run env (e :: evs) s = run env evs (stepEv env e s) := rfl

theorem stepEv_move_fields (env : BrowserEnv) (x y : Rat) (s : PageState) :
    (stepEv env (MouseEv.mousemove x y) s).col_dragging = s.col_dragging ∧
    (stepEv env (MouseEv.mousemove x y) s).row_dragging = s.row_dragging ∧
    (stepEv env (MouseEv.mousemove x y) s).moveHandlers = s.moveHandlers :=
  runHandlers_flags env x y s.moveHandlers s

theorem stepEv_mouseup_col_false (env : BrowserEnv) (s : PageState) :
    (stepEv env MouseEv.mouseup s).col_dragging = false := by
  cases hcb : s.col_dragging <;> cases hrb : s.row_dragging <;>
    simp [stepEv, hcb, hrb]

theorem stepEv_mouseup_handlers (env : BrowserEnv) (s : PageState) :
    (stepEv env MouseEv.mouseup s).moveHandlers = s.moveHandlers := by
  cases hcb : s.col_dragging <;> cases hrb : s.row_dragging <;>
    simp [stepEv, hcb, hrb]

theorem stepEv_mouseup_row_imp (env : BrowserEnv) (s : PageState)
    (h : (stepEv env MouseEv.mouseup s).row_dragging = true) :
    s.row_dragging = true := by
  cases hcb : s.col_dragging <;> cases hrb : s.row_dragging <;>
    first
      | rfl
      | simp [stepEv, hcb, hrb] at h

theorem stepEv_mouseup_row_false (env : BrowserEnv) (s : PageState)
    (h : s.col_dragging = false ∨ s.row_dragging = false) :
    (stepEv env MouseEv.mouseup s).row_dragging = false := by
  cases hcb : s.col_dragging with
  | false =>
    cases hrb : s.row_dragging with
    | false => simp [stepEv, hcb, hrb]
    | true => simp [stepEv, hcb, hrb]
  | true =>
    cases hrb : s.row_dragging with
    | false => simp [stepEv, hcb, hrb]
    | true =>
      rcases h with h | h
      · rw [hcb] at h; simp at h
      · rw [hrb] at h; simp at h

theorem applyMoveHandler_idem (env : BrowserEnv) (x y : Rat)
    (h : HandlerKind) (s : PageState) :
    applyMoveHandler env x y h (applyMoveHandler env x y h s) =
      applyMoveHandler env x y h s := by
  cases h <;> simp only [applyMoveHandler] <;>
    cases hcb : s.col_dragging <;> cases hrb : s.row_dragging <;>
      simp [hcb, hrb]

theorem applyMoveHandler_iterate_fix (env : BrowserEnv) (x y : Rat)
    (h : HandlerKind) (m : Nat) (s : PageState) :
    (applyMoveHandler env x y h)^[m] (applyMoveHandler env x y h s) =
      applyMoveHandler env x y h s := by
  induction m generalizing s with
  | zero => rfl
  | succ k ih =>
    rw [Function.iterate_succ_apply, applyMoveHandler_idem]
    exact ih s

theorem pressOK_exclusive (env : BrowserEnv) (evs : List MouseEv) :
    ∀ (pressed : Bool) (s : PageState),
      pressOK pressed evs = true →
      (pressed = false → s.col_dragging = false ∧ s.row_dragging = false) →
      (pressed = true → s.col_dragging = false ∨ s.row_dragging = false) →
      (run env evs s).col_dragging = false ∨
        (run env evs s).row_dragging = false := by
  induction evs with
  | nil =>
    intro pressed s _ hF hT
    cases pressed
    · exact Or.inl (hF rfl).1
    · exact hT rfl
  | cons e evs ih =>
    intro pressed s hseq hF hT
    rw [run_cons]
    cases e with
    | mousedownCol =>
      simp only [pressOK, Bool.and_eq_true, Bool.not_eq_true'] at hseq
      obtain ⟨hp, hrest⟩ := hseq
      obtain ⟨hc0, hr0⟩ := hF hp
      apply ih true _ hrest
      · intro h; simp at h
      · intro _
        right
        simp [stepEv, hr0]
    | mousedownRow =>
      simp only [pressOK, Bool.and_eq_true, Bool.not_eq_true'] at hseq
      obtain ⟨hp, hrest⟩ := hseq
      obtain ⟨hc0, hr0⟩ := hF hp
      apply ih true _ hrest
      · intro h; simp at h
      · intro _
        left
        simp [stepEv, hc0]
    | mousemove x y =>
      simp only [pressOK] at hseq
      obtain ⟨f1, f2, f3⟩ := stepEv_move_fields env x y s
      apply ih pressed _ hseq
      · intro hp
        obtain ⟨hc0, hr0⟩ := hF hp
        exact ⟨f1.trans hc0, f2.trans hr0⟩
      · intro hp
        rcases hT hp with h | h
        · exact Or.inl (f1.trans h)
        · exact Or.inr (f2.trans h)
    | mouseup =>
      simp only [pressOK] at hseq
      have hor : s.col_dragging = false ∨ s.row_dragging = false := by
        cases pressed
        · exact Or.inl (hF rfl).1
        · exact hT rfl
      apply ih false _ hseq
      · intro _
        exact ⟨stepEv_mouseup_col_false env s,
               stepEv_mouseup_row_false env s hor⟩
      · intro h; simp at h

theorem run_handler_attached (env : BrowserEnv) (evs : List MouseEv) :
    ∀ s : PageState,
      (s.col_dragging = true → HandlerKind.colMove ∈ s.moveHandlers) →
      (s.row_dragging = true → HandlerKind.rowMove ∈ s.moveHandlers) →
      ((run env evs s).col_dragging = true →
        HandlerKind.colMove ∈ (run env evs s).moveHandlers) ∧
      ((run env evs s).row_dragging = true →
        HandlerKind.rowMove ∈ (run env evs s).moveHandlers) := by
  induction evs with
  | nil => intro s hcol hrow; exact ⟨hcol, hrow⟩
  | cons e evs ih =>
    intro s hcol hrow
    rw [run_cons]
    cases e with
    | mousedownCol =>
      apply ih
      · intro _
        simp [stepEv]
      · intro hr
        simp only [stepEv] at hr ⊢
        exact List.mem_append_left _ (hrow hr)
    | mousedownRow =>
      apply ih
      · intro hc
        simp only [stepEv] at hc ⊢
        exact List.mem_append_left _ (hcol hc)
      · intro _
        simp [stepEv]
    | mousemove x y =>
      obtain ⟨f1, f2, f3⟩ := stepEv_move_fields env x y s
      apply ih
      · intro hc
        rw [f3]
        exact hcol (f1.symm.trans hc)
      · intro hr
        rw [f3]
        exact hrow (f2.symm.trans hr)
    | mouseup =>
      apply ih
      · intro hc
        rw [stepEv_mouseup_col_false env s] at hc
        simp at hc
      · intro hr
        rw [stepEv_mouseup_handlers]
        exact hrow (stepEv_mouseup_row_imp env s hr)

/-- C1 counterexample: with a selected file and an upload response that
resolves with HTTP status 500 (a non-2xx failure response), the code still
navigates to currentURL ++ "get_key_phrases" — the then-continuation runs on
any resolved fetch promise, with no check of the response status. -/
theorem c1_counterexample :
    UAction.navigate ("http://h/" ++ "get_key_phrases") ∈
      changeEventTrace cUploadEnv (FetchOutcome.resolved 500) ∧
    ¬(200 ≤ 500 ∧ 500 < 300) := by
  constructor
  · simp [changeEventTrace, handleFileSelectSync, fetchThen, cUploadEnv]
  · decide

/-- C1 (amended): for every file-selection change event, the handler issues
exactly one POST to the upload endpoint; the browser navigates to
currentURL ++ "get_key_phrases" exactly once when the fetch promise resolves
(with any HTTP response, 2xx or not) and never when it rejects with a
transport error; and no navigation ever happens before the response is
observed. -/
theorem c1_upload_then_navigate (env : UploadEnv) (o : FetchOutcome) :
    postCount (changeEventTrace env o) = 1 ∧
    navCount (changeEventTrace env o) =
      (match o with
       | FetchOutcome.resolved _ => 1
       | FetchOutcome.transportError => 0) ∧
    navCount (beforeResponse (changeEventTrace env o)) = 0 := by
  cases o <;> exact ⟨rfl, rfl, rfl⟩

/-- C2 counterexample: on a transport error the rejection is unhandled — the
trace contains zero diagnostic log entries, not exactly one — and on a
non-2xx response (HTTP 404) the handler navigates anyway. -/
theorem c2_counterexample :
    logCount (changeEventTrace cUploadEnv FetchOutcome.transportError) = 0 ∧
    navCount (changeEventTrace cUploadEnv (FetchOutcome.resolved 404)) = 1 := by
  exact ⟨rfl, rfl⟩

/-- C2 (amended): when the upload fetch rejects with a transport error, no
navigation occurs, no retry is issued (exactly one POST), but the failure is
not caught and no diagnostic log entry is produced (the fetch has no catch
handler and the code contains no console call); a non-2xx HTTP response is
not treated as a failure at all: the handler navigates exactly as on
success. -/
theorem c2_failure_uncaught_unlogged (env : UploadEnv) (st : Nat) :
    navCount (changeEventTrace env FetchOutcome.transportError) = 0 ∧
    logCount (changeEventTrace env FetchOutcome.transportError) = 0 ∧
    postCount (changeEventTrace env FetchOutcome.transportError) = 1 ∧
    navCount (changeEventTrace env (FetchOutcome.resolved st)) = 1 := by
  exact ⟨rfl, rfl, rfl, rfl⟩

/-- C7 counterexample: a change event whose selection is empty still issues
the POST to the upload endpoint — handleFileSelect performs no validation
and submits the FormData unconditionally. -/
theorem c7_counterexample :
    cUploadEnvEmpty.selection = none ∧
    postCount (changeEventTrace cUploadEnvEmpty FetchOutcome.transportError) =
      1 := by
  exact ⟨rfl, rfl⟩

/-- C7 (amended): the file selection is not validated, but an empty selection
is still submitted: on every change event, also one with an empty selection,
the handler issues exactly one POST to origin ++ "/upload_file", carrying
the empty form body. -/
theorem c7_post_unconditional (origin href : String) (o : FetchOutcome) :
    postCount
      (changeEventTrace { origin := origin, href := href, selection := none }
        o) = 1 ∧
    UAction.post (origin ++ "/upload_file") none ∈
      changeEventTrace { origin := origin, href := href, selection := none }
        o := by
  cases o <;>
    simp [changeEventTrace, handleFileSelectSync, fetchThen, postCount,
      isPost]

/-- C3: for every mousemove while a column drag is active (starting from a
page-load state, after any event sequence), container-left and
container-right widths sum exactly to 100 and pdf-container width is 0;
for every mousemove while a row drag is active, ckp-list and embedding-plot
heights sum exactly to 100. -/
theorem c3_move_sums (env : BrowserEnv) (evs : List MouseEv) (s0 : PageState)
    (hc0 : s0.col_dragging = false) (hr0 : s0.row_dragging = false)
    (x y : Rat) :
    ((run env evs s0).col_dragging = true →
      (stepEv env (MouseEv.mousemove x y) (run env evs s0)).containerLeft =
        x / env.innerWidth * 100 ∧
      (stepEv env (MouseEv.mousemove x y) (run env evs s0)).containerRight =
        100 - x / env.innerWidth * 100 ∧
      (stepEv env (MouseEv.mousemove x y) (run env evs s0)).containerLeft +
        (stepEv env (MouseEv.mousemove x y) (run env evs s0)).containerRight
        = 100 ∧
      (stepEv env (MouseEv.mousemove x y) (run env evs s0)).pdfContainer
        = 0) ∧
    ((run env evs s0).row_dragging = true →
      (stepEv env (MouseEv.mousemove x y) (run env evs s0)).ckpList =
        y / env.innerHeight * 100 ∧
      (stepEv env (MouseEv.mousemove x y) (run env evs s0)).embeddingPlot =
        100 - y / env.innerHeight * 100 ∧
      (stepEv env (MouseEv.mousemove x y) (run env evs s0)).ckpList +
        (stepEv env (MouseEv.mousemove x y) (run env evs s0)).embeddingPlot
        = 100) := by
  obtain ⟨hc, hr⟩ := run_handler_attached env evs s0
    (fun h => absurd h (by simp [hc0])) (fun h => absurd h (by simp [hr0]))
  constructor
  · intro h
    obtain ⟨e1, e2, e3⟩ :=
      runHandlers_colInvariant env x y _ _ h (Or.inr (hc h))
    exact ⟨e1, e2, by simp only [stepEv]; rw [e1, e2]; ring, e3⟩
  · intro h
    obtain ⟨e1, e2⟩ :=
      runHandlers_rowInvariant env x y _ _ h (Or.inr (hr h))
    exact ⟨e1, e2, by simp only [stepEv]; rw [e1, e2]; ring⟩

/-- Witness for C3: press on the column bar, then move to pageX = 300 in a
1000-wide viewport. -/
theorem c3_move_sums_witness :
    ((run cBrowserEnv [MouseEv.mousedownCol] cInit).col_dragging = true →
      (stepEv cBrowserEnv (MouseEv.mousemove 300 0)
          (run cBrowserEnv [MouseEv.mousedownCol] cInit)).containerLeft =
        (300 : Rat) / cBrowserEnv.innerWidth * 100 ∧
      (stepEv cBrowserEnv (MouseEv.mousemove 300 0)
          (run cBrowserEnv [MouseEv.mousedownCol] cInit)).containerRight =
        100 - (300 : Rat) / cBrowserEnv.innerWidth * 100 ∧
      (stepEv cBrowserEnv (MouseEv.mousemove 300 0)
          (run cBrowserEnv [MouseEv.mousedownCol] cInit)).containerLeft +
        (stepEv cBrowserEnv (MouseEv.mousemove 300 0)
          (run cBrowserEnv [MouseEv.mousedownCol] cInit)).containerRight
        = 100 ∧
      (stepEv cBrowserEnv (MouseEv.mousemove 300 0)
          (run cBrowserEnv [MouseEv.mousedownCol] cInit)).pdfContainer
        = 0) ∧
    ((run cBrowserEnv [MouseEv.mousedownCol] cInit).row_dragging = true →
      (stepEv cBrowserEnv (MouseEv.mousemove 300 0)
          (run cBrowserEnv [MouseEv.mousedownCol] cInit)).ckpList =
        (0 : Rat) / cBrowserEnv.innerHeight * 100 ∧
      (stepEv cBrowserEnv (MouseEv.mousemove 300 0)
          (run cBrowserEnv [MouseEv.mousedownCol] cInit)).embeddingPlot =
        100 - (0 : Rat) / cBrowserEnv.innerHeight * 100 ∧
      (stepEv cBrowserEnv (MouseEv.mousemove 300 0)
          (run cBrowserEnv [MouseEv.mousedownCol] cInit)).ckpList +
        (stepEv cBrowserEnv (MouseEv.mousemove 300 0)
          (run cBrowserEnv [MouseEv.mousedownCol] cInit)).embeddingPlot
        = 100) :=
  c3_move_sums cBrowserEnv [MouseEv.mousedownCol] cInit rfl rfl 300 0

/-- C4 counterexample: from the reachable state produced by a mousedown on
the column bar followed by a mousedown on the row bar (no release in
between), a pointer-up leaves row_dragging still true — the else-if chain
clears only the column flag, so not every combination of flag states ends
with both flags false. -/
theorem c4_counterexample :
    (stepEv cBrowserEnv MouseEv.mouseup
      (run cBrowserEnv [MouseEv.mousedownCol, MouseEv.mousedownRow] cInit)
      ).row_dragging = true := rfl

/-- C4 (amended): after a pointer-up from any state where at most one drag
flag is set, both flags are false, and pdf-container width is restored to
100 if the column drag had been active; but the release is an else-if
chain, not two independent checks: from a state where both flags are set it
clears only the column flag (restoring pdf-container) and leaves the row
flag set. -/
theorem c4_release_behavior (env : BrowserEnv) (s : PageState) :
    (s.col_dragging = false ∨ s.row_dragging = false →
      (stepEv env MouseEv.mouseup s).col_dragging = false ∧
      (stepEv env MouseEv.mouseup s).row_dragging = false ∧
      (s.col_dragging = true →
        (stepEv env MouseEv.mouseup s).pdfContainer = 100)) ∧
    (s.col_dragging = true → s.row_dragging = true →
      (stepEv env MouseEv.mouseup s).col_dragging = false ∧
      (stepEv env MouseEv.mouseup s).row_dragging = true ∧
      (stepEv env MouseEv.mouseup s).pdfContainer = 100) := by
  constructor
  · intro hor
    refine ⟨stepEv_mouseup_col_false env s,
            stepEv_mouseup_row_false env s hor, ?_⟩
    intro hc
    simp [stepEv, hc]
  · intro hc hr
    refine ⟨stepEv_mouseup_col_false env s, ?_, ?_⟩ <;> simp [stepEv, hc, hr]

/-- Witness for C4: a release from the idle page-load state, and a release
from the state where both flags are set. -/
theorem c4_release_behavior_witness :
    ((stepEv cBrowserEnv MouseEv.mouseup cInit).col_dragging = false ∧
     (stepEv cBrowserEnv MouseEv.mouseup cInit).row_dragging = false ∧
     (cInit.col_dragging = true →
       (stepEv cBrowserEnv MouseEv.mouseup cInit).pdfContainer = 100)) ∧
    ((stepEv cBrowserEnv MouseEv.mouseup cBoth).col_dragging = false ∧
     (stepEv cBrowserEnv MouseEv.mouseup cBoth).row_dragging = true ∧
     (stepEv cBrowserEnv MouseEv.mouseup cBoth).pdfContainer = 100) :=
  ⟨(c4_release_behavior cBrowserEnv cInit).1 (Or.inl rfl),
   (c4_release_behavior cBrowserEnv cBoth).2 rfl rfl⟩

/-- C5 counterexample: the event sequence mousedown on the column bar then
mousedown on the row bar (with no mouseup in between) reaches a state where
col_dragging and row_dragging are both true. -/
theorem c5_counterexample :
    (run cBrowserEnv [MouseEv.mousedownCol, MouseEv.mousedownRow] cInit
      ).col_dragging = true ∧
    (run cBrowserEnv [MouseEv.mousedownCol, MouseEv.mousedownRow] cInit
      ).row_dragging = true := ⟨rfl, rfl⟩

/-- C5 (amended): in every state reachable from a page-load state by an
event sequence in which no second mousedown occurs before a mouseup has
released the previous press, at most one drag axis is active:
col_dragging and row_dragging are never both true. -/
theorem c5_exclusive_under_alternation (env : BrowserEnv)
    (evs : List MouseEv) (s0 : PageState)
    (hc0 : s0.col_dragging = false) (hr0 : s0.row_dragging = false)
    (hseq : pressOK false evs = true) :
    ¬((run env evs s0).col_dragging = true ∧
      (run env evs s0).row_dragging = true) := by
  rintro ⟨h1, h2⟩
  rcases pressOK_exclusive env evs false s0 hseq
      (fun _ => ⟨hc0, hr0⟩) (fun h => by simp at h) with h | h
  · rw [h1] at h; simp at h
  · rw [h2] at h; simp at h

/-- Witness for C5: a full column gesture followed by a row press and
release keeps the two flags exclusive. -/
theorem c5_exclusive_witness :
    ¬((run cBrowserEnv
        [MouseEv.mousedownCol, MouseEv.mousemove 300 0, MouseEv.mouseup,
         MouseEv.mousedownRow, MouseEv.mouseup] cInit).col_dragging = true ∧
      (run cBrowserEnv
        [MouseEv.mousedownCol, MouseEv.mousemove 300 0, MouseEv.mouseup,
         MouseEv.mousedownRow, MouseEv.mouseup] cInit).row_dragging =
        true) :=
  c5_exclusive_under_alternation cBrowserEnv
    [MouseEv.mousedownCol, MouseEv.mousemove 300 0, MouseEv.mouseup,
     MouseEv.mousedownRow, MouseEv.mouseup] cInit rfl rfl rfl

/-- C6 counterexample: in the legacy single-dragbar revision, a pointer-up
with no active drag session still sets pdf-container width to 100 percent
and its page property to 1 — it modifies page state, so it is not a no-op
there. -/
theorem c6_counterexample :
    cLegacy.dragging = false ∧
    (legacyMouseup cLegacy).pdfContainer ≠ cLegacy.pdfContainer ∧
    (legacyMouseup cLegacy).pdfPage ≠ cLegacy.pdfPage := by
  refine ⟨rfl, ?_, ?_⟩ <;> decide

/-- C6 (amended): in the current two-bar revision, a pointer-up with both
drag flags false is a no-op on the entire page state; in the legacy
single-dragbar revisions the document mouseup handler unconditionally sets
pdf-container width to 100 percent (and, in the revision at the top of
index.js, the page property to 1), whether or not a press preceded it. -/
theorem c6_release_noop (env : BrowserEnv) (s : PageState) (ls : LegacyState)
    (hc : s.col_dragging = false) (hr : s.row_dragging = false) :
    stepEv env MouseEv.mouseup s = s ∧
    (legacyMouseup ls).pdfContainer = 100 ∧
    (legacyMouseup ls).pdfPage = 1 := by
  refine ⟨?_, rfl, rfl⟩
  simp [stepEv, hc, hr]

/-- Witness for C6: the idle page-load state and the concrete legacy
state. -/
theorem c6_release_noop_witness :
    stepEv cBrowserEnv MouseEv.mouseup cInit = cInit ∧
    (legacyMouseup cLegacy).pdfContainer = 100 ∧
    (legacyMouseup cLegacy).pdfPage = 1 :=
  c6_release_noop cBrowserEnv cInit cLegacy rfl rfl

/-- C8: a document mousemove while both drag flags are false leaves the
whole page state unchanged — every accumulated handler is gated on its
flag — no matter how many handlers earlier gestures have attached. -/
theorem c8_move_noop_when_idle (env : BrowserEnv) (x y : Rat)
    (s : PageState) (hc : s.col_dragging = false)
    (hr : s.row_dragging = false) :
    stepEv env (MouseEv.mousemove x y) s = s :=
  runHandlers_inactive env x y s.moveHandlers s hc hr

/-- Witness for C8: an idle state that has three accumulated handlers. -/
theorem c8_move_noop_witness :
    stepEv cBrowserEnv (MouseEv.mousemove 500 400) cIdleHandlers =
      cIdleHandlers :=
  c8_move_noop_when_idle cBrowserEnv 500 400 cIdleHandlers rfl rfl

/-- C9: each mousedown on a bar appends one more identical document-level
mousemove handler (none is ever removed), and the per-move update of one
handler is idempotent: iterating it n times (n at least 1) on any state
with the same event produces exactly the state of running it once. -/
theorem c9_accumulate_idempotent (env : BrowserEnv) (x y : Rat)
    (s : PageState) (hk : HandlerKind) (n : Nat) (hn : 1 ≤ n) :
    (stepEv env MouseEv.mousedownCol s).moveHandlers =
      s.moveHandlers ++ [HandlerKind.colMove] ∧
    (stepEv env MouseEv.mousedownRow s).moveHandlers =
      s.moveHandlers ++ [HandlerKind.rowMove] ∧
    (applyMoveHandler env x y hk)^[n] s = applyMoveHandler env x y hk s := by
  refine ⟨rfl, rfl, ?_⟩
  obtain ⟨m, hm⟩ := Nat.exists_eq_add_of_le hn
  subst hm
  rw [Nat.add_comm 1 m, Function.iterate_add_apply, Function.iterate_one]
  exact applyMoveHandler_iterate_fix env x y hk m s

/-- Witness for C9: three iterations of the column handler during an active
column drag coincide with one application. -/
theorem c9_accumulate_idempotent_witness :
    (stepEv cBrowserEnv MouseEv.mousedownCol cColActive).moveHandlers =
      cColActive.moveHandlers ++ [HandlerKind.colMove] ∧
    (stepEv cBrowserEnv MouseEv.mousedownRow cColActive).moveHandlers =
      cColActive.moveHandlers ++ [HandlerKind.rowMove] ∧
    (applyMoveHandler cBrowserEnv 300 0 HandlerKind.colMove)^[3] cColActive =
      applyMoveHandler cBrowserEnv 300 0 HandlerKind.colMove cColActive :=
  c9_accumulate_idempotent cBrowserEnv 300 0 cColActive HandlerKind.colMove 3
    (by decide)

/-- C10 counterexample: in the reachable state where both drag flags are set
(mousedown on the column bar, then mousedown on the row bar, no release in
between), col_dragging is true — a column drag is active — yet a single
mousemove changes ckp-list, so the heights are not unchanged; and
row_dragging is true — a row drag is active — yet the same mousemove
changes container-left, so the widths are not unchanged either. -/
theorem c10_counterexample :
    run cBrowserEnv [MouseEv.mousedownCol, MouseEv.mousedownRow] cInit =
      cBoth ∧
    cBoth.col_dragging = true ∧
    cBoth.row_dragging = true ∧
    (stepEv cBrowserEnv (MouseEv.mousemove 300 200) cBoth).ckpList ≠
      cBoth.ckpList ∧
    (stepEv cBrowserEnv (MouseEv.mousemove 300 200) cBoth).containerLeft ≠
      cBoth.containerLeft := by
  refine ⟨rfl, rfl, rfl, ?_, ?_⟩ <;>
    simp [stepEv, runHandlers, applyMoveHandler, cBrowserEnv, cBoth] <;>
    norm_num

/-- C10 (amended): the two bars touch disjoint extents per handler — a
mousemove never changes the flags or the handler list; while no row drag is
active it leaves both heights (ckp-list, embedding-plot) unchanged, and
while no column drag is active it leaves all three widths (container-left,
container-right, pdf-container) unchanged. When both drags are active at
once, one mousemove modifies both the widths and the heights. -/
theorem c10_disjoint_axes (env : BrowserEnv) (x y : Rat) (s : PageState) :
    ((stepEv env (MouseEv.mousemove x y) s).col_dragging = s.col_dragging ∧
     (stepEv env (MouseEv.mousemove x y) s).row_dragging = s.row_dragging ∧
     (stepEv env (MouseEv.mousemove x y) s).moveHandlers =
       s.moveHandlers) ∧
    (s.row_dragging = false →
      (stepEv env (MouseEv.mousemove x y) s).ckpList = s.ckpList ∧
      (stepEv env (MouseEv.mousemove x y) s).embeddingPlot =
        s.embeddingPlot) ∧
    (s.col_dragging = false →
      (stepEv env (MouseEv.mousemove x y) s).containerLeft =
        s.containerLeft ∧
      (stepEv env (MouseEv.mousemove x y) s).containerRight =
        s.containerRight ∧
      (stepEv env (MouseEv.mousemove x y) s).pdfContainer =
        s.pdfContainer) :=
  ⟨stepEv_move_fields env x y s,
   fun hr => runHandlers_heights env x y s.moveHandlers s hr,
   fun hc => runHandlers_widths env x y s.moveHandlers s hc⟩

/-- Witness for C10: a move during an exclusively-active column drag keeps
both heights, and a move during an exclusively-active row drag keeps all
three widths. -/
theorem c10_disjoint_axes_witness :
    ((stepEv cBrowserEnv (MouseEv.mousemove 300 400) cColActive).ckpList =
       cColActive.ckpList ∧
     (stepEv cBrowserEnv (MouseEv.mousemove 300 400) cColActive
       ).embeddingPlot = cColActive.embeddingPlot) ∧
    ((stepEv cBrowserEnv (MouseEv.mousemove 300 400) cRowActive
       ).containerLeft = cRowActive.containerLeft ∧
     (stepEv cBrowserEnv (MouseEv.mousemove 300 400) cRowActive
       ).containerRight = cRowActive.containerRight ∧
     (stepEv cBrowserEnv (MouseEv.mousemove 300 400) cRowActive
       ).pdfContainer = cRowActive.pdfContainer) :=
  ⟨(c10_disjoint_axes cBrowserEnv 300 400 cColActive).2.1 rfl,
   (c10_disjoint_axes cBrowserEnv 300 400 cRowActive).2.2 rfl⟩

/-- The scenario of the specification, replayed on the embedding: press on
the column bar in a 1000-wide viewport and move to pageX = 300; then
container-left is 30 percent, container-right 70 percent and pdf-container
0 percent; the following pointer-up restores pdf-container to 100 percent
and clears the flag. -/
theorem scenario_column_drag :
    (run cBrowserEnv [MouseEv.mousedownCol, MouseEv.mousemove 300 0]
      cInit).containerLeft = 30 ∧
    (run cBrowserEnv [MouseEv.mousedownCol, MouseEv.mousemove 300 0]
      cInit).containerRight = 70 ∧
    (run cBrowserEnv [MouseEv.mousedownCol, MouseEv.mousemove 300 0]
      cInit).pdfContainer = 0 ∧
    (run cBrowserEnv
      [MouseEv.mousedownCol, MouseEv.mousemove 300 0, MouseEv.mouseup]
      cInit).pdfContainer = 100 ∧
    (run cBrowserEnv
      [MouseEv.mousedownCol, MouseEv.mousemove 300 0, MouseEv.mouseup]
      cInit).col_dragging = false := by
  refine ⟨?_, ?_, ?_, ?_, ?_⟩ <;>
    simp [run, stepEv, runHandlers, applyMoveHandler, cBrowserEnv, cInit] <;>
    norm_num

/-- The upload flow replayed on the embedding: a change event with a
selected file and a resolved response produces exactly the trace
preventDefault, POST, response, navigation. -/
theorem scenario_upload :
    changeEventTrace cUploadEnv (FetchOutcome.resolved 200) =
      [UAction.preventDefault,
       UAction.post "http://h/upload_file" (some "f.pdf"),
       UAction.respObserved (FetchOutcome.resolved 200),
       UAction.navigate "http://h/get_key_phrases"] := by
  decide
